import Mathlib

/-!
# Verification of the service-control module

A shallow embedding of `src/service-control.ts` from
`globe-tracker/service-control-module`.  The controller coordinates the run
state of service instances through a shared key-value store (Redis).  For a
fixed controller (fixed service name and instance id) only five store cells are
ever touched: the global services set, the per-service instances set, the
per-instance descriptor blob (with TTL), the per-service state value and the
per-service signal value.  We model the store as a record of those five cells.

Store operations may fail (the TS promises reject with a store error); we model
this with an operation-indexed fault schedule `fs : Nat → Bool` — the n-th
store operation performed fails iff `fs n` is true — threaded through a state
monad that always returns the state reached so far (so that `shutdown`'s
catch/finally behaviour can be expressed).

JavaScript quirks are modelled faithfully:
* `if (!x)` on a nullable string is falsy for both `null` and `""` (`jsFalsy`);
* `JSON.parse` failure on the descriptor blob yields an empty partial object;
* object spread `{...payload, f: v, ...}` overrides exactly the listed fields.

The `process.on(SIGINT/SIGTERM)` hook installation in `register` has no store
effect and is outside the model; `logger.*` calls are modelled as an append-only
log of (level, message) pairs; `sleep` is modelled as a counter of sleeps.
-/

namespace ServiceControl

/-- A scalar metadata value (`string | number | boolean` in the TS types). -/
inductive Scalar where
  | str : String → Scalar
  | num : Int → Scalar
  | boolVal : Bool → Scalar
deriving DecidableEq, Repr

/-- The full `ServiceInstance` descriptor from `types.ts` (all fields
required except the optional `stopReason`). -/
structure ServiceInstance where
  serviceName : String
  appType : String
  instanceId : String
  hostname : String
  pid : Nat
  startedAt : String
  lastSeen : String
  status : String
  tags : List String
  meta : List (String × Scalar)
  stopReason : Option String := none
deriving DecidableEq, Repr

/-- `Partial<ServiceInstance>`: every field optional, as produced by parsing a
stored descriptor blob. -/
structure PartialInstance where
  serviceName : Option String := none
  appType : Option String := none
  instanceId : Option String := none
  hostname : Option String := none
  pid : Option Nat := none
  startedAt : Option String := none
  lastSeen : Option String := none
  status : Option String := none
  tags : Option (List String) := none
  meta : Option (List (String × Scalar)) := none
  stopReason : Option String := none
deriving DecidableEq, Repr

/-- The empty partial descriptor (`{}`). -/
def emptyPartial : PartialInstance := {}

/-- `JSON.stringify` of a full descriptor, viewed through a later
`JSON.parse`: every field present; `stopReason` present iff set. -/
def toPartial (si : ServiceInstance) : PartialInstance where
  serviceName := some si.serviceName
  appType := some si.appType
  instanceId := some si.instanceId
  hostname := some si.hostname
  pid := some si.pid
  startedAt := some si.startedAt
  lastSeen := some si.lastSeen
  status := some si.status
  tags := some si.tags
  meta := some si.meta
  stopReason := si.stopReason

/-- A stored descriptor blob: either well-formed JSON for a (partial)
descriptor, or a malformed string that fails to parse. -/
inductive Blob where
  | wellFormed : PartialInstance → Blob
  | malformed : String → Blob
deriving DecidableEq, Repr

/-- `raw ? JSON.parse(raw) : {}` with the `try/catch` that maps a parse
failure to `{}` (heartbeat lines 89–93, shutdown lines 179–183). -/
def parseBlob : Option Blob → PartialInstance
  | none => emptyPartial
  | some (Blob.wellFormed p) => p
  | some (Blob.malformed _) => emptyPartial

/-- The five store cells a single controller touches.  `instVal` pairs the
stored blob with its remaining TTL as set by the last write. -/
structure Store where
  stateVal : Option String
  signalVal : Option String
  instVal : Option (Blob × Nat)
  instancesSet : List String
  servicesSet : List String
deriving DecidableEq, Repr

/-- Full machine state: the store plus instrumentation — the count of store
operations performed (used to index the fault schedule), the log (newest
first) and the number of `sleep` calls. -/
structure St where
  store : Store
  opCount : Nat
  log : List (String × String)
  sleeps : Nat
deriving DecidableEq, Repr

/-- The single store failure (a rejected Redis promise). -/
inductive StoreError where
  | storeError
deriving DecidableEq, Repr

/-- State monad with errors that do not lose the state reached so far. -/
def M (α : Type) : Type := St → Except StoreError α × St

instance : Monad M where
  pure a := fun s => (Except.ok a, s)
  bind x f := fun s =>
    match x s with
    | (Except.ok a, s1) => f a s1
    | (Except.error e, s1) => (Except.error e, s1)

/-- One store operation: fails iff the fault schedule fires at the current
operation index, otherwise applies `act` to the store and bumps the index. -/
def stepOp {α : Type} (fs : Nat → Bool) (act : Store → α × Store) : M α :=
  fun s =>
    if fs s.opCount then (Except.error StoreError.storeError, s)
    else (Except.ok (act s.store).1,
      { s with store := (act s.store).2, opCount := s.opCount + 1 })

/-- JS falsiness of a nullable string: `null` and `""` are falsy. -/
def jsFalsy : Option String → Bool
  | none => true
  | some s => s == ""

/-- `signal.toLowerCase()`: per-character lowercasing (structural, so that
concrete runs reduce in the kernel). -/
def lowerString (s : String) : String := String.mk (s.data.map Char.toLower)

/-- The controller's configuration: identity fields, optional tags/meta and
the heartbeat TTL / poll interval (defaults 30 / 1000 in the source). -/
structure Ctx where
  serviceName : String
  appType : String
  instanceId : String
  hostname : String
  pid : Nat
  tags : Option (List String)
  meta : Option (List (String × Scalar))
  heartbeatTtl : Nat
  pollMs : Nat

/-- `redis.sadd(servicesSetKey, serviceName)`. -/
def saddServices (fs : Nat → Bool) (ctx : Ctx) : M Unit :=
  stepOp fs (fun st => ((),
    { st with servicesSet :=
        if ctx.serviceName ∈ st.servicesSet then st.servicesSet
        else ctx.serviceName :: st.servicesSet }))

/-- `redis.sadd(instancesSetKey, instanceId)`. -/
def saddInstances (fs : Nat → Bool) (ctx : Ctx) : M Unit :=
  stepOp fs (fun st => ((),
    { st with instancesSet :=
        if ctx.instanceId ∈ st.instancesSet then st.instancesSet
        else ctx.instanceId :: st.instancesSet }))

/-- `redis.srem(instancesSetKey, instanceId)`. -/
def sremInstances (fs : Nat → Bool) (ctx : Ctx) : M Unit :=
  stepOp fs (fun st => ((),
    { st with instancesSet :=
        st.instancesSet.filter (fun x => x != ctx.instanceId) }))

/-- `redis.set(instanceKey, JSON.stringify(body), "EX", ttl)`. -/
def setInstanceKey (fs : Nat → Bool) (b : Blob) (ttl : Nat) : M Unit :=
  stepOp fs (fun st => ((), { st with instVal := some (b, ttl) }))

/-- `redis.get(instanceKey)`. -/
def getInstanceKey (fs : Nat → Bool) : M (Option Blob) :=
  stepOp fs (fun st => (st.instVal.map Prod.fst, st))

/-- `redis.get(stateKey)`. -/
def getStateKey (fs : Nat → Bool) : M (Option String) :=
  stepOp fs (fun st => (st.stateVal, st))

/-- `redis.set(stateKey, v)`. -/
def setStateKey (fs : Nat → Bool) (v : String) : M Unit :=
  stepOp fs (fun st => ((), { st with stateVal := some v }))

/-- `redis.get(signalKey)`. -/
def getSignalKey (fs : Nat → Bool) : M (Option String) :=
  stepOp fs (fun st => (st.signalVal, st))

/-- `redis.del(signalKey)`. -/
def delSignalKey (fs : Nat → Bool) : M Unit :=
  stepOp fs (fun st => ((), { st with signalVal := none }))

/-- `logger.warn(...)` — append-only, never fails, no store operation. -/
def logWarn (m : String) : M Unit :=
  fun s => (Except.ok (), { s with log := ("warn", m) :: s.log })

/-- `logger.info(...)`. -/
def logInfo (m : String) : M Unit :=
  fun s => (Except.ok (), { s with log := ("info", m) :: s.log })

/-- `logger.error(...)`. -/
def logError (m : String) : M Unit :=
  fun s => (Except.ok (), { s with log := ("error", m) :: s.log })

/-- `sleep(pollMs)` — modelled as bumping the sleep counter. -/
def doSleep : M Unit :=
  fun s => (Except.ok (), { s with sleeps := s.sleeps + 1 })

/-- The initial descriptor built by `register()` (lines 43–54). -/
def registerPayload (ctx : Ctx) (now : String) : ServiceInstance :=
  { serviceName := ctx.serviceName, appType := ctx.appType
    instanceId := ctx.instanceId, hostname := ctx.hostname, pid := ctx.pid
    startedAt := now, lastSeen := now, status := "running"
    tags := ctx.tags.getD [], meta := ctx.meta.getD [], stopReason := none }

/-- `register()` (service-control.ts lines 41–83).  The
`process.on(SIGINT/SIGTERM)` hook installation has no store effect and is
outside the model. -/
def register (fs : Nat → Bool) (ctx : Ctx) (now : String) : M Unit := do
  let payload : ServiceInstance := registerPayload ctx now
  saddServices fs ctx
  saddInstances fs ctx
  setInstanceKey fs (Blob.wellFormed (toPartial payload)) ctx.heartbeatTtl
  let existingState ← getStateKey fs
  if jsFalsy existingState then
    setStateKey fs "running"
  let pendingSignal ← getSignalKey fs
  if existingState = some "stopping" ∧ pendingSignal ≠ some "stop" then do
    setStateKey fs "running"
    logWarn "Recovered from stale stopping state"
  logInfo "Service registered"

/-- `getState()` (lines 138–143). -/
def getState (fs : Nat → Bool) : M String := do
  let state ← getStateKey fs
  if state = some "paused" then pure "paused"
  else if state = some "stopping" then pure "stopping"
  else pure "running"

/-- The merged descriptor written by `heartbeat` (lines 94–106): the spread
`{...payload, ...}` overrides every field except `stopReason`, preserves the
stored `startedAt` when present, and takes tags/meta from the options. -/
def heartbeatBody (ctx : Ctx) (now : String) (payload : PartialInstance)
    (status : String) : ServiceInstance :=
  { serviceName := ctx.serviceName, appType := ctx.appType
    instanceId := ctx.instanceId, hostname := ctx.hostname, pid := ctx.pid
    startedAt := payload.startedAt.getD now, lastSeen := now
    status := status
    tags := ctx.tags.getD [], meta := ctx.meta.getD []
    stopReason := payload.stopReason }

/-- `heartbeat(statusOverride?)` (lines 85–108).  `statusOverride ?? (await
getState())` short-circuits: `getState` runs only when no override is given. -/
def heartbeat (fs : Nat → Bool) (ctx : Ctx) (now : String)
    (statusOverride : Option String) : M Unit := do
  let raw ← getInstanceKey fs
  let payload := parseBlob raw
  let status ←
    match statusOverride with
    | some v => pure v
    | none => getState fs
  setInstanceKey fs (Blob.wellFormed (toPartial (heartbeatBody ctx now payload status)))
    ctx.heartbeatTtl

/-- `applySignal()` (lines 110–136).  Returns one of
`"none" | "pause" | "resume" | "stop"`.  `if (!signal)` is falsy for `null`
and `""`; in both cases the function returns early without deleting. -/
def applySignal (fs : Nat → Bool) : M String := do
  let signal ← getSignalKey fs
  match signal with
  | none => pure "none"
  | some sg =>
    if sg == "" then pure "none"
    else
      let normalized := lowerString sg
      if normalized = "pause" then do
        setStateKey fs "paused"
        delSignalKey fs
        logWarn "Pause signal applied"
        pure "pause"
      else if normalized = "resume" then do
        setStateKey fs "running"
        delSignalKey fs
        logWarn "Resume signal applied"
        pure "resume"
      else if normalized = "stop" then do
        setStateKey fs "stopping"
        delSignalKey fs
        logWarn "Stop signal applied"
        pure "stop"
      else do
        delSignalKey fs
        logWarn "Unknown signal received"
        pure "none"

/-- `shouldStop()` (lines 168–172). -/
def shouldStop (fs : Nat → Bool) : M Bool := do
  let sig ← applySignal fs
  let state ← getState fs
  pure (sig == "stop" || state == "stopping")

/-- The body of `waitIfPaused`'s `while (true)` loop (lines 153–165), with
explicit fuel bounding the number of iterations we examine.  Returns `true`
when the loop exited by `break`, `false` when the fuel ran out. -/
def waitLoop (fs : Nat → Bool) (ctx : Ctx) (now : String) : Nat → M Bool
  | 0 => fun s => (Except.ok false, s)
  | Nat.succ n => do
    heartbeat fs ctx now (some "paused")
    let sig ← applySignal fs
    let state ← getState fs
    if sig == "stop" || state == "stopping" then pure true
    else if state == "running" then do
      logInfo "Resumed from pause"
      pure true
    else do
      doSleep
      waitLoop fs ctx now n

/-- `waitIfPaused()` (lines 145–166).  Returns `true` when the function
returned, `false` when the fuel for the pause loop ran out. -/
def waitIfPaused (fs : Nat → Bool) (ctx : Ctx) (now : String) (fuel : Nat) :
    M Bool := do
  let _ ← applySignal fs
  let state ← getState fs
  if state != "paused" then pure true
  else do
    logInfo "Service paused. Waiting for resume signal..."
    waitLoop fs ctx now fuel

/-- The `try` block of `shutdown(reason?)` (lines 175–200). -/
def shutdownBody (fs : Nat → Bool) (ctx : Ctx) (now : String)
    (reason : Option String) : M Unit := do
  setStateKey fs "stopping"
  let raw ← getInstanceKey fs
  let payload := parseBlob raw
  let body : ServiceInstance :=
    { serviceName := ctx.serviceName, appType := ctx.appType
      instanceId := ctx.instanceId, hostname := ctx.hostname, pid := ctx.pid
      startedAt := payload.startedAt.getD now, lastSeen := now
      status := "stopping"
      tags := ctx.tags.getD [], meta := ctx.meta.getD []
      stopReason := some (reason.getD "manual") }
  setInstanceKey fs (Blob.wellFormed (toPartial body)) 10
  sremInstances fs ctx

/-- `shutdown(reason?)` (lines 174–206): the `try/catch/finally` — a failure
in the body is caught and logged as an error, and completion is always
logged; the call itself always succeeds. -/
def shutdown (fs : Nat → Bool) (ctx : Ctx) (now : String)
    (reason : Option String) : M Unit := fun s =>
  match shutdownBody fs ctx now reason s with
  | (Except.ok _, s1) =>
    (Except.ok (), { s1 with log := ("info", "Shutdown complete") :: s1.log })
  | (Except.error _, s1) =>
    (Except.ok (), { s1 with log :=
      ("info", "Shutdown complete") :: ("error", "Error during shutdown") :: s1.log })

/-- The all-clear fault schedule: no store operation fails. -/
def noFault : Nat → Bool := fun _ => false

/-- The all-fail fault schedule: every store operation fails. -/
def allFail : Nat → Bool := fun _ => true

/-- The state written for each recognized (normalized) signal:
pause ↦ paused, resume ↦ running, stop ↦ stopping. -/
def sigTarget (s : String) : String :=
  if s = "pause" then "paused"
  else if s = "resume" then "running"
  else "stopping"

/-- A concrete controller configuration used for concrete runs. -/
def sampleCtx : Ctx :=
  { serviceName := "svc", appType := "api", instanceId := "host-1-abc"
    hostname := "host", pid := 1, tags := none, meta := none
    heartbeatTtl := 30, pollMs := 1000 }

/-! ## Helper lemmas -/

/-- Unfolding of the monadic bind applied to a state. -/
theorem bind_apply {α β : Type} (x : M α) (f : α → M β) (s : St) :
    (x >>= f) s = match x s with
      | (Except.ok a, s1) => f a s1
      | (Except.error e, s1) => (Except.error e, s1) := rfl

/-- Unfolding of `pure` applied to a state. -/
theorem pure_apply {α : Type} (a : α) (s : St) :
    (pure a : M α) s = (Except.ok a, s) := rfl

/-! ## Claims -/

/-- C1: stale-recovery law for `register()`: if the service-wide state read
during registration is "stopping" and no signal is pending, `register`
overwrites the state to "running"; if the pending signal has the exact value
"stop", `register` leaves the state as "stopping". -/
theorem register_stale_recovery (ctx : Ctx) (now : String) (iv : Option (Blob × Nat))
    (is ss : List String) (c : Nat) (l : List (String × String)) (sl : Nat) :
    ((register noFault ctx now ⟨⟨some "stopping", none, iv, is, ss⟩, c, l, sl⟩).2.store.stateVal
        = some "running"
      ∧ (register noFault ctx now ⟨⟨some "stopping", none, iv, is, ss⟩, c, l, sl⟩).1
        = Except.ok ())
    ∧ ((register noFault ctx now
          ⟨⟨some "stopping", some "stop", iv, is, ss⟩, c, l, sl⟩).2.store.stateVal
        = some "stopping"
      ∧ (register noFault ctx now ⟨⟨some "stopping", some "stop", iv, is, ss⟩, c, l, sl⟩).1
        = Except.ok ()) :=
  ⟨⟨rfl, rfl⟩, ⟨rfl, rfl⟩⟩

/-- C2 counterexample: with service-wide state "stopping" and the pending
signal stored as the case variant "STOP", `register` does NOT leave the state
as "stopping" — the recovery check compares the raw signal with the exact
string "stop", so it fires and the state becomes "running". -/
theorem register_stop_variant_cex :
    ((register noFault sampleCtx "2024-01-01T00:00:00Z"
        ⟨⟨some "stopping", some "STOP", none, [], []⟩, 0, [], 0⟩).2.store.stateVal
      = some "running")
    ∧ (some "running" : Option String) ≠ some "stopping" :=
  ⟨rfl, by decide⟩

/-- C2 amended: the recovery check in `register` compares the pending signal
with the exact lowercase string "stop": for every pending signal value other
than exactly "stop" (in particular any other case variant such as "STOP" or
"Stop"), a state of "stopping" is overwritten to "running"; only the exact
value "stop" leaves the state as "stopping". -/
theorem register_stop_signal_exact (ctx : Ctx) (now v : String)
    (iv : Option (Blob × Nat)) (is ss : List String) (c : Nat)
    (l : List (String × String)) (sl : Nat) (h : v ≠ "stop") :
    ((register noFault ctx now ⟨⟨some "stopping", some v, iv, is, ss⟩, c, l, sl⟩).2.store.stateVal
      = some "running")
    ∧ ((register noFault ctx now
        ⟨⟨some "stopping", some "stop", iv, is, ss⟩, c, l, sl⟩).2.store.stateVal
      = some "stopping") := by
  constructor
  · simp [register, bind_apply, pure_apply, saddServices, saddInstances, setInstanceKey,
      getStateKey, getSignalKey, setStateKey, stepOp, jsFalsy, noFault, logWarn, logInfo, h]
  · rfl

/-- C2 amended, witness at the case variant "Stop". -/
theorem register_stop_signal_exact_witness :
    ((register noFault sampleCtx "t"
        ⟨⟨some "stopping", some "Stop", none, [], []⟩, 0, [], 0⟩).2.store.stateVal
      = some "running")
    ∧ ((register noFault sampleCtx "t"
        ⟨⟨some "stopping", some "stop", none, [], []⟩, 0, [], 0⟩).2.store.stateVal
      = some "stopping") :=
  register_stop_signal_exact sampleCtx "t" "Stop" none [] [] 0 [] 0 (by decide)

/-- C3: consume-once law.  Starting from a store holding exactly one
recognized signal value, the first `applySignal` performs the corresponding
state transition (writes the new service-wide state, deletes the signal key,
returns the normalized kind) and the second `applySignal` returns "none",
leaving the store (and the log) unchanged. -/
theorem applySignal_consume_once (sv : Option String) (v : String)
    (iv : Option (Blob × Nat)) (is ss : List String) (c : Nat)
    (l : List (String × String)) (sl : Nat)
    (hv : lowerString v = "pause" ∨ lowerString v = "resume" ∨ lowerString v = "stop") :
    let st : St := ⟨⟨sv, some v, iv, is, ss⟩, c, l, sl⟩
    let r1 := applySignal noFault st
    r1.1 = Except.ok (lowerString v)
    ∧ r1.2.store.signalVal = none
    ∧ r1.2.store.stateVal = some (sigTarget (lowerString v))
    ∧ (applySignal noFault r1.2).1 = Except.ok "none"
    ∧ (applySignal noFault r1.2).2.store = r1.2.store
    ∧ (applySignal noFault r1.2).2.log = r1.2.log := by
  intro st r1
  have hne : v ≠ "" := by
    rcases hv with h | h | h <;>
      { rintro rfl; exact absurd h (by decide) }
  rcases hv with h | h | h <;>
    simp [st, r1, applySignal, bind_apply, pure_apply, getSignalKey, setStateKey,
      delSignalKey, stepOp, noFault, logWarn, hne, h, sigTarget]

/-- C3, witness at the mixed-case signal "PAUSE". -/
theorem applySignal_consume_once_witness :
    let st : St := ⟨⟨some "running", some "PAUSE", none, [], []⟩, 0, [], 0⟩
    let r1 := applySignal noFault st
    r1.1 = Except.ok (lowerString "PAUSE")
    ∧ r1.2.store.signalVal = none
    ∧ r1.2.store.stateVal = some (sigTarget (lowerString "PAUSE"))
    ∧ (applySignal noFault r1.2).1 = Except.ok "none"
    ∧ (applySignal noFault r1.2).2.store = r1.2.store
    ∧ (applySignal noFault r1.2).2.log = r1.2.log :=
  applySignal_consume_once (some "running") "PAUSE" none [] [] 0 [] 0
    (Or.inl (by decide))

/-- C4: `shouldStop()` first applies any pending signal once and then returns
true iff the applied signal was "stop" or the state read by `getState` is
"stopping" (for any fault schedule under which both steps succeed). -/
theorem shouldStop_spec (fs : Nat → Bool) (st st1 st2 : St) (sig stt : String)
    (h1 : applySignal fs st = (Except.ok sig, st1))
    (h2 : getState fs st1 = (Except.ok stt, st2)) :
    shouldStop fs st = (Except.ok (sig == "stop" || stt == "stopping"), st2)
    ∧ ((shouldStop fs st).1 = Except.ok true ↔ (sig = "stop" ∨ stt = "stopping")) := by
  have hmain : shouldStop fs st = (Except.ok (sig == "stop" || stt == "stopping"), st2) := by
    simp [shouldStop, bind_apply, pure_apply, h1, h2]
  refine ⟨hmain, ?_⟩
  rw [hmain]
  simp

/-- C4, witness: a pending "stop" signal makes `shouldStop` return true. -/
theorem shouldStop_spec_witness :
    shouldStop noFault ⟨⟨some "running", some "stop", none, [], []⟩, 0, [], 0⟩
      = (Except.ok (("stop" == "stop") || ("stopping" == "stopping")),
         ⟨⟨some "stopping", none, none, [], []⟩, 4, [("warn", "Stop signal applied")], 0⟩)
    ∧ ((shouldStop noFault ⟨⟨some "running", some "stop", none, [], []⟩, 0, [], 0⟩).1
        = Except.ok true ↔ (("stop" : String) = "stop" ∨ ("stopping" : String) = "stopping")) :=
  shouldStop_spec noFault ⟨⟨some "running", some "stop", none, [], []⟩, 0, [], 0⟩
    ⟨⟨some "stopping", none, none, [], []⟩, 3, [("warn", "Stop signal applied")], 0⟩
    ⟨⟨some "stopping", none, none, [], []⟩, 4, [("warn", "Stop signal applied")], 0⟩
    "stop" "stopping" rfl rfl

/-- C5: the hot path of `waitIfPaused()`.  Generally, whenever the state read
after the initial signal application is not "paused", `waitIfPaused` returns
immediately in the state left by that applySignal/getState pair (no heartbeat
and no sleep).  In particular, with state "paused" and pending signal "stop":
it returns without entering the pause loop, having set the state to
"stopping" and deleted the signal (descriptor and sleep count untouched), and
a subsequent `shouldStop()` returns true. -/
theorem waitIfPaused_hot_path :
    (∀ (fs : Nat → Bool) (ctx : Ctx) (now : String) (fuel : Nat) (st st1 st2 : St)
      (sig stt : String),
      applySignal fs st = (Except.ok sig, st1) →
      getState fs st1 = (Except.ok stt, st2) →
      stt ≠ "paused" →
      waitIfPaused fs ctx now fuel st = (Except.ok true, st2))
    ∧ (∀ (ctx : Ctx) (now : String) (fuel : Nat) (iv : Option (Blob × Nat))
        (is ss : List String) (c : Nat) (l : List (String × String)) (sl : Nat),
      (waitIfPaused noFault ctx now fuel
          ⟨⟨some "paused", some "stop", iv, is, ss⟩, c, l, sl⟩).1 = Except.ok true
      ∧ (waitIfPaused noFault ctx now fuel
          ⟨⟨some "paused", some "stop", iv, is, ss⟩, c, l, sl⟩).2.store.stateVal = some "stopping"
      ∧ (waitIfPaused noFault ctx now fuel
          ⟨⟨some "paused", some "stop", iv, is, ss⟩, c, l, sl⟩).2.store.signalVal = none
      ∧ (waitIfPaused noFault ctx now fuel
          ⟨⟨some "paused", some "stop", iv, is, ss⟩, c, l, sl⟩).2.store.instVal = iv
      ∧ (waitIfPaused noFault ctx now fuel
          ⟨⟨some "paused", some "stop", iv, is, ss⟩, c, l, sl⟩).2.sleeps = sl
      ∧ (shouldStop noFault (waitIfPaused noFault ctx now fuel
          ⟨⟨some "paused", some "stop", iv, is, ss⟩, c, l, sl⟩).2).1 = Except.ok true) := by
  constructor
  · intro fs ctx now fuel st st1 st2 sig stt h1 h2 h3
    simp [waitIfPaused, bind_apply, pure_apply, h1, h2, h3]
  · intro ctx now fuel iv is ss c l sl
    exact ⟨rfl, rfl, rfl, rfl, rfl, rfl⟩

/-- C5, witness for the general hot-path part at a concrete store. -/
theorem waitIfPaused_hot_path_witness :
    waitIfPaused noFault sampleCtx "t" 3 ⟨⟨some "paused", some "stop", none, [], []⟩, 0, [], 0⟩
      = (Except.ok true,
         ⟨⟨some "stopping", none, none, [], []⟩, 4, [("warn", "Stop signal applied")], 0⟩) :=
  waitIfPaused_hot_path.1 noFault sampleCtx "t" 3
    ⟨⟨some "paused", some "stop", none, [], []⟩, 0, [], 0⟩
    ⟨⟨some "stopping", none, none, [], []⟩, 3, [("warn", "Stop signal applied")], 0⟩
    ⟨⟨some "stopping", none, none, [], []⟩, 4, [("warn", "Stop signal applied")], 0⟩
    "stop" "stopping" rfl rfl (by decide)

/-- C6: `getState()` never modifies the store (so two consecutive calls over
an unchanged store return the same value), it never fails on a malformed
value, and for every stored state other than "paused"/"stopping" — including
absence of the key — it returns "running"  (storing "running" itself also
reads back "running", so the defaulting clause covers every value other than
the three valid states). -/
theorem getState_idempotent_default (sv sg : Option String) (iv : Option (Blob × Nat))
    (is ss : List String) (c : Nat) (l : List (String × String)) (sl : Nat) :
    let st : St := ⟨⟨sv, sg, iv, is, ss⟩, c, l, sl⟩
    let r := getState noFault st
    r.2.store = st.store
    ∧ r.2.log = st.log
    ∧ r.2.sleeps = st.sleeps
    ∧ (getState noFault r.2).1 = r.1
    ∧ (∃ v, r.1 = Except.ok v)
    ∧ (∀ v, sv = some v → v ≠ "paused" → v ≠ "stopping" → r.1 = Except.ok "running")
    ∧ (sv = none → r.1 = Except.ok "running") := by
  intro st r
  rcases sv with _ | v
  · simp [st, r, getState, bind_apply, pure_apply, getStateKey, stepOp, noFault]
  · by_cases hp : v = "paused"
    · subst hp
      simp [st, r, getState, bind_apply, pure_apply, getStateKey, stepOp, noFault]
    · by_cases hs : v = "stopping"
      · subst hs
        simp [st, r, getState, bind_apply, pure_apply, getStateKey, stepOp, noFault]
      · simp [st, r, getState, bind_apply, pure_apply, getStateKey, stepOp, noFault, hp, hs]

/-- C6, witness: a malformed stored state value reads back as "running". -/
theorem getState_idempotent_default_witness :
    (getState noFault ⟨⟨some "garbage", none, none, [], []⟩, 0, [], 0⟩).1
      = Except.ok "running" :=
  (getState_idempotent_default (some "garbage") none none [] [] 0 [] 0).2.2.2.2.2.1
    "garbage" rfl (by decide) (by decide)

/-- C7: `shutdown("manual")` on an instance whose descriptor is stored with
TTL 30 rewrites the descriptor with TTL 10, status "stopping" and stopReason
"manual", sets the service-wide state to "stopping" and removes the instance
id from the per-service instances set; calling `shutdown` with no reason
behaves identically (stopReason defaults to "manual"). -/
theorem shutdown_manual (ctx : Ctx) (now : String) (b : Blob) (sv sg : Option String)
    (is ss : List String) (c : Nat) (l : List (String × String)) (sl : Nat) :
    let st : St := ⟨⟨sv, sg, some (b, 30), is, ss⟩, c, l, sl⟩
    let r := shutdown noFault ctx now (some "manual") st
    r.1 = Except.ok ()
    ∧ r.2.store.stateVal = some "stopping"
    ∧ (∃ p : PartialInstance, r.2.store.instVal = some (Blob.wellFormed p, 10)
        ∧ p.status = some "stopping" ∧ p.stopReason = some "manual")
    ∧ r.2.store.instancesSet = is.filter (fun x => x != ctx.instanceId)
    ∧ ctx.instanceId ∉ r.2.store.instancesSet
    ∧ shutdown noFault ctx now none st = r := by
  intro st r
  rcases b with p | s <;>
    { refine ⟨rfl, rfl, ⟨_, rfl, rfl, rfl⟩, rfl, ?_, rfl⟩
      show ctx.instanceId ∉ is.filter (fun x => x != ctx.instanceId)
      simp [List.mem_filter] }

/-- C8: store-failure policy.  `shutdown` never propagates a store failure:
under every fault schedule it returns successfully, always logs completion,
and when its body failed it logs the failure as an error.  By contrast a
store failure during `register`, `heartbeat` or `applySignal` propagates to
the caller (here: a schedule failing the operation they perform first makes
the whole call fail, leaving the state untouched). -/
theorem store_failure_policy :
    (∀ (fs : Nat → Bool) (ctx : Ctx) (now : String) (reason : Option String) (st : St),
      (shutdown fs ctx now reason st).1 = Except.ok ()
      ∧ (∃ rest, (shutdown fs ctx now reason st).2.log
          = ("info", "Shutdown complete") :: rest)
      ∧ (∀ e, (shutdownBody fs ctx now reason st).1 = Except.error e →
          ("error", "Error during shutdown") ∈ (shutdown fs ctx now reason st).2.log))
    ∧ (∀ (fs : Nat → Bool) (ctx : Ctx) (now : String) (so : Option String) (st : St),
      fs st.opCount = true →
      register fs ctx now st = (Except.error StoreError.storeError, st)
      ∧ heartbeat fs ctx now so st = (Except.error StoreError.storeError, st)
      ∧ applySignal fs st = (Except.error StoreError.storeError, st)) := by
  constructor
  · intro fs ctx now reason st
    rcases hB : shutdownBody fs ctx now reason st with ⟨rb, s1⟩
    cases rb <;> simp [shutdown, hB]
  · intro fs ctx now so st h
    refine ⟨?_, ?_, ?_⟩ <;>
      simp [register, heartbeat, applySignal, bind_apply, saddServices, getInstanceKey,
        getSignalKey, stepOp, h]

/-- C8, witness under the all-fail schedule. -/
theorem store_failure_policy_witness :
    (shutdown allFail sampleCtx "t" none ⟨⟨none, none, none, [], []⟩, 0, [], 0⟩).1
      = Except.ok ()
    ∧ ("error", "Error during shutdown")
        ∈ (shutdown allFail sampleCtx "t" none ⟨⟨none, none, none, [], []⟩, 0, [], 0⟩).2.log
    ∧ register allFail sampleCtx "t" ⟨⟨none, none, none, [], []⟩, 0, [], 0⟩
        = (Except.error StoreError.storeError, ⟨⟨none, none, none, [], []⟩, 0, [], 0⟩)
    ∧ heartbeat allFail sampleCtx "t" none ⟨⟨none, none, none, [], []⟩, 0, [], 0⟩
        = (Except.error StoreError.storeError, ⟨⟨none, none, none, [], []⟩, 0, [], 0⟩)
    ∧ applySignal allFail ⟨⟨none, none, none, [], []⟩, 0, [], 0⟩
        = (Except.error StoreError.storeError, ⟨⟨none, none, none, [], []⟩, 0, [], 0⟩) :=
  ⟨(store_failure_policy.1 allFail sampleCtx "t" none _).1,
   (store_failure_policy.1 allFail sampleCtx "t" none _).2.2 StoreError.storeError rfl,
   (store_failure_policy.2 allFail sampleCtx "t" none _ rfl).1,
   (store_failure_policy.2 allFail sampleCtx "t" none _ rfl).2.1,
   (store_failure_policy.2 allFail sampleCtx "t" none _ rfl).2.2⟩

/-- C9 counterexample: with the state key present but holding the empty
string, `register` overwrites it to "running" — although the key was not
absent and stale-recovery did not fire ("" is not "stopping").  The
`if (!existingState)` initialization check treats the JS-falsy "" like an
absent key, so "writes the state key only when it was absent or when
stale-recovery fires" is violated at this input. -/
theorem register_empty_state_cex :
    ((register noFault sampleCtx "t" ⟨⟨some "", none, none, [], []⟩, 0, [], 0⟩).2.store.stateVal
      = some "running")
    ∧ (some "" : Option String) ≠ none
    ∧ ("" : String) ≠ "stopping"
    ∧ (some "running" : Option String) ≠ some "" :=
  ⟨rfl, by decide, by decide, by decide⟩

/-- C9 amended: frame property of `register` on the state and signal keys:
`register` never writes the signal key, and writes the state key only when it
was absent **or the empty string** (initializing it to "running") or when
stale-recovery fires (existing state "stopping" with no pending exact "stop"
signal); in particular any other existing state — e.g. "running" or "paused"
— is left unchanged, while the instance's own initial descriptor is written
with status "running". -/
theorem register_frame_property (ctx : Ctx) (now : String) (sv sg : Option String)
    (iv : Option (Blob × Nat)) (is ss : List String) (c : Nat)
    (l : List (String × String)) (sl : Nat) :
    let st : St := ⟨⟨sv, sg, iv, is, ss⟩, c, l, sl⟩
    let r := register noFault ctx now st
    r.2.store.signalVal = sg
    ∧ (∀ v, sv = some v → v ≠ "" → v ≠ "stopping" → r.2.store.stateVal = some v)
    ∧ ((sv = none ∨ sv = some "") → r.2.store.stateVal = some "running")
    ∧ (sv = some "stopping" →
        r.2.store.stateVal = (if sg = some "stop" then some "stopping" else some "running"))
    ∧ r.2.store.instVal
        = some (Blob.wellFormed (toPartial (registerPayload ctx now)), ctx.heartbeatTtl)
    ∧ (toPartial (registerPayload ctx now)).status = some "running" := by
  intro st r
  rcases sv with _ | v
  · refine ⟨rfl, ?_, fun _ => rfl, ?_, rfl, rfl⟩
    · intro w hw
      exact absurd hw (by simp)
    · intro hv
      exact absurd hv (by simp)
  · by_cases he : v = ""
    · subst he
      refine ⟨rfl, ?_, fun _ => rfl, ?_, rfl, rfl⟩
      · intro w hw hne _
        exact absurd (Option.some.inj hw).symm hne
      · intro hv
        exact absurd hv (by simp)
    · by_cases hstop : v = "stopping"
      · subst hstop
        rcases Decidable.em (sg = some "stop") with h | h
        · subst h
          refine ⟨rfl, ?_, ?_, fun _ => ?_, rfl, rfl⟩
          · intro w hw _ hne
            exact absurd (Option.some.inj hw).symm hne
          · intro hv
            rcases hv with hv | hv <;> simp at hv
          · rw [if_pos rfl]
            rfl
        · refine ⟨?_, ?_, ?_, fun _ => ?_, ?_, rfl⟩
          · simp [st, r, register, registerPayload, bind_apply, pure_apply, saddServices,
              saddInstances, setInstanceKey, getStateKey, getSignalKey, setStateKey, stepOp,
              jsFalsy, noFault, logWarn, logInfo, h]
          · intro w hw _ hne
            exact absurd (Option.some.inj hw).symm hne
          · intro hv
            rcases hv with hv | hv <;> simp at hv
          · rw [if_neg h]
            simp [st, r, register, registerPayload, bind_apply, pure_apply, saddServices,
              saddInstances, setInstanceKey, getStateKey, getSignalKey, setStateKey, stepOp,
              jsFalsy, noFault, logWarn, logInfo, h]
          · simp [st, r, register, registerPayload, bind_apply, pure_apply, saddServices,
              saddInstances, setInstanceKey, getStateKey, getSignalKey, setStateKey, stepOp,
              jsFalsy, noFault, logWarn, logInfo, h]
      · refine ⟨?_, ?_, ?_, ?_, ?_, rfl⟩
        · simp [st, r, register, registerPayload, bind_apply, pure_apply, saddServices,
            saddInstances, setInstanceKey, getStateKey, getSignalKey, setStateKey, stepOp,
            jsFalsy, noFault, logWarn, logInfo, he, hstop]
        · intro w hw _ _
          rcases Option.some.inj hw
          simp [st, r, register, registerPayload, bind_apply, pure_apply, saddServices,
            saddInstances, setInstanceKey, getStateKey, getSignalKey, setStateKey, stepOp,
            jsFalsy, noFault, logWarn, logInfo, he, hstop]
        · intro hv
          rcases hv with hv | hv
          · simp at hv
          · exact absurd (Option.some.inj hv) he
        · intro hv
          exact absurd (Option.some.inj hv) hstop
        · simp [st, r, register, registerPayload, bind_apply, pure_apply, saddServices,
            saddInstances, setInstanceKey, getStateKey, getSignalKey, setStateKey, stepOp,
            jsFalsy, noFault, logWarn, logInfo, he, hstop]

/-- C9 amended, witness: a fresh instance of a paused service still observes
state "paused" after registering. -/
theorem register_frame_property_witness :
    (register noFault sampleCtx "t"
        ⟨⟨some "paused", none, none, [], []⟩, 0, [], 0⟩).2.store.stateVal
      = some "paused" :=
  (register_frame_property sampleCtx "t" (some "paused") none none [] [] 0 [] 0).2.1
    "paused" rfl (by decide) (by decide)

/-- C10: every `heartbeat` writes a descriptor built by the merge
`heartbeatBody`, whose tags and meta always equal the controller's configured
options (defaulting to the empty list and empty mapping) regardless of the
tags and meta in the stored blob, while the stored `startedAt`, when present
in a parseable blob, is preserved (and is set to `now` otherwise). -/
theorem heartbeat_tags_meta (ctx : Ctx) (now : String) (so sv sg : Option String)
    (iv : Option (Blob × Nat)) (is ss : List String) (c : Nat)
    (l : List (String × String)) (sl : Nat) :
    let st : St := ⟨⟨sv, sg, iv, is, ss⟩, c, l, sl⟩
    let r := heartbeat noFault ctx now so st
    r.1 = Except.ok ()
    ∧ (∃ status, r.2.store.instVal
        = some (Blob.wellFormed (toPartial
            (heartbeatBody ctx now (parseBlob (iv.map Prod.fst)) status)),
          ctx.heartbeatTtl))
    ∧ (∀ pl stt, (toPartial (heartbeatBody ctx now pl stt)).tags
        = some (ctx.tags.getD []))
    ∧ (∀ pl stt, (toPartial (heartbeatBody ctx now pl stt)).meta
        = some (ctx.meta.getD []))
    ∧ (∀ pl stt t0, pl.startedAt = some t0 →
        (toPartial (heartbeatBody ctx now pl stt)).startedAt = some t0)
    ∧ (∀ pl stt, pl.startedAt = none →
        (toPartial (heartbeatBody ctx now pl stt)).startedAt = some now) := by
  intro st r
  refine ⟨?_, ?_, fun pl stt => rfl, fun pl stt => rfl, ?_, ?_⟩
  case refine_3 =>
    intro pl stt t0 h
    show some (pl.startedAt.getD now) = some t0
    rw [h]
    rfl
  case refine_4 =>
    intro pl stt h
    show some (pl.startedAt.getD now) = some now
    rw [h]
    rfl
  all_goals
    rcases so with _ | v
    case some => first
      | rfl
      | exact ⟨v, rfl⟩
    case none =>
      by_cases hp : sv = some "paused"
      all_goals by_cases hs : sv = some "stopping"
      all_goals first
        | (subst hp; first | rfl | exact ⟨"paused", rfl⟩)
        | (subst hs; first | rfl | exact ⟨"stopping", rfl⟩)
        | (first
            | (refine ⟨"running", ?_⟩
               simp [st, r, heartbeat, bind_apply, pure_apply, getInstanceKey, getState,
                 getStateKey, setInstanceKey, stepOp, noFault, hp, hs])
            | simp [st, r, heartbeat, bind_apply, pure_apply, getInstanceKey, getState,
                getStateKey, setInstanceKey, stepOp, noFault, hp, hs])

/-- C10, witness: the `startedAt` written by `register` survives a later
heartbeat merge. -/
theorem heartbeat_tags_meta_witness :
    (toPartial (heartbeatBody sampleCtx "t2"
        (toPartial (registerPayload sampleCtx "t1")) "running")).startedAt
      = some "t1" :=
  (heartbeat_tags_meta sampleCtx "t2" none (some "running") none none [] [] 0 [] 0).2.2.2.2.1
    (toPartial (registerPayload sampleCtx "t1")) "running" "t1" rfl

end ServiceControl
